import Mathlib

/-!
A verification development for the UVMR_Essential_Vocabulary corpus
pipeline.  The Python sources (`generate_corpus.py`, `article.py`) are
shallowly embedded over `List Char`: every definition below is a direct
translation of the corresponding Python function, with Python string
operations (`strip`, `split`, `translate`, `re.sub` with the concrete
patterns appearing in the source) modelled by executable Lean functions.
Scanning functions that consume a variable number of characters per step
take an explicit fuel argument (always instantiated with the string
length at the call sites inside wrapper definitions), so that every
definition is executable by the kernel.
-/

namespace UVMR

/-- Strings are modelled as lists of characters. -/
abbrev Str := List Char

/-- Turn a Lean string literal into the `List Char` model. -/
def lit (s : String) : Str := s.data

/-- The whitespace characters recognised by Python's `str.strip()` /
`str.split()` for the ASCII inputs handled by this pipeline. -/
def isWsChar (c : Char) : Bool :=
  c = ' ' || c = '\t' || c = '\n' || c = '\r' || c = '\x0b' || c = '\x0c'

/-- Python `str.strip()`: remove leading and trailing whitespace. -/
def pyStrip (s : Str) : Str :=
  (((s.dropWhile isWsChar).reverse).dropWhile isWsChar).reverse

/-- `needle` occurs at the start of `s` (Python `str.startswith`). -/
def startsW : Str → Str → Bool
  | [], _ => true
  | _ :: _, [] => false
  | n :: ns, c :: cs => n = c && startsW ns cs

/-- `needle` occurs at the end of `s` (Python `str.endswith`). -/
def endsW (needle s : Str) : Bool :=
  startsW needle.reverse s.reverse

/-- `needle` occurs somewhere in `s` (Python `in` on strings;
the needle is assumed non-empty, as everywhere in the source). -/
def containsSub : Str → Str → Bool
  | _, [] => false
  | needle, c :: cs => startsW needle (c :: cs) || containsSub needle cs

/-- Python `s.replace(old, new, 1)`: replace the first occurrence. -/
def replFirst (needle repl : Str) : Str → Str
  | [] => []
  | c :: cs =>
    if startsW needle (c :: cs) then repl ++ (c :: cs).drop needle.length
    else c :: replFirst needle repl cs

/-- Python `re.sub` with a literal pattern: replace every (non-overlapping,
leftmost-first) occurrence of `needle` by `repl`.  Fuel-driven so the
kernel can evaluate it; call through `subLit`. -/
def subLitF (needle repl : Str) : Nat → Str → Str
  | _, [] => []
  | 0, s => s
  | fuel + 1, c :: cs =>
    if needle ≠ [] && startsW needle (c :: cs) then
      repl ++ subLitF needle repl fuel ((c :: cs).drop needle.length)
    else c :: subLitF needle repl fuel cs

def subLit (needle repl s : Str) : Str := subLitF needle repl s.length s

/-- Python `s.split(sep)` for a single-character separator: splits at every
occurrence, keeping empty fragments. -/
def splitOnCh (sep : Char) : Str → List Str
  | [] => [[]]
  | c :: cs =>
    if c = sep then [] :: splitOnCh sep cs
    else
      match splitOnCh sep cs with
      | [] => [[c]]
      | t :: ts => (c :: t) :: ts

/-- Helper for `pySplitWs`: `acc` is the token collected so far. -/
def splitWsAux : Str → Str → List Str
  | [], acc => if acc = [] then [] else [acc.reverse]
  | c :: cs, acc =>
    if isWsChar c then
      if acc = [] then splitWsAux cs [] else acc.reverse :: splitWsAux cs []
    else splitWsAux cs (c :: acc)

/-- Python `s.split()` with no argument: split on whitespace runs,
discarding empty fragments. -/
def pySplitWs (s : Str) : List Str := splitWsAux s []

/-- Python `' '.join(ts)`. -/
def joinSpaces : List Str → Str
  | [] => []
  | [t] => t
  | t :: ts => t ++ ' ' :: joinSpaces ts

/-- Python `re.sub(r" +", " ", s)`: collapse runs of spaces. -/
def collapseSpaces : Str → Str
  | [] => []
  | c :: cs =>
    if c = ' ' && cs.head? = some ' ' then collapseSpaces cs
    else c :: collapseSpaces cs

/-- Python `str.lower()` on the ASCII range. -/
def pyLowerChar (c : Char) : Char :=
  if 65 ≤ c.toNat ∧ c.toNat ≤ 90 then Char.ofNat (c.toNat + 32) else c

def pyLower (s : Str) : Str := s.map pyLowerChar

/-- Python slice `s[2:-2]`. -/
def slice2m2 (s : Str) : Str := (s.drop 2).take (s.length - 4)

/-- Python slice `s[1:-1]`. -/
def slice1m1 (s : Str) : Str := (s.drop 1).take (s.length - 2)

/-- First run of decimal digits in a string
(`re.findall(r'\d+', s)[0]`), `none` when there is no digit. -/
def firstDigitRun : Str → Option Str
  | [] => none
  | c :: cs =>
    if c.isDigit then some (c :: cs.takeWhile Char.isDigit)
    else firstDigitRun cs

/-- Digit string to `Nat` (Python `int` on a digit run). -/
def digitsToNat (s : Str) : Nat :=
  s.foldl (fun n c => 10 * n + (c.toNat - 48)) 0

end UVMR

namespace UVMR

/-! ## Scanners for the concrete regular expressions of `generate_corpus.py`

Each of the following fuel-driven functions implements exactly one of the
`re` patterns appearing in `process_paragraph`, with Python's leftmost,
non-overlapping, lazy-shortest matching semantics.  The fuel is always
the length of the scanned string at the wrapper call sites. -/

/-- Lazy search for the closing anchor `B` of an `A.*?B`-style pattern:
finds the shortest middle (whose characters all satisfy `¬ bad`; for `.`
patterns `bad` is "is a newline", for `[^\x7b]` patterns it is "is an
opening brace") such that `B` starts right after it.  Returns the middle
and the rest of the string after `B`. -/
def findClose (B : Str) (bad : Char → Bool) : Nat → Str → Option (Str × Str)
  | fuel, s =>
    if startsW B s then some ([], s.drop B.length)
    else
      match fuel, s with
      | _, [] => none
      | 0, _ => none
      | fuel + 1, c :: cs =>
        if bad c then none
        else (findClose B bad fuel cs).map (fun p => (c :: p.1, p.2))

/-- `re.sub("A.*?B", repl, s)` for literal anchors `A`, `B`:
replace every match, continuing after each match. -/
def subSpan (A B : Str) (bad : Char → Bool) (repl : Str) : Nat → Str → Str
  | _, [] => []
  | 0, s => s
  | fuel + 1, c :: cs =>
    if startsW A (c :: cs) then
      match findClose B bad ((c :: cs).drop A.length).length ((c :: cs).drop A.length) with
      | some (_, after) => repl ++ subSpan A B bad repl fuel after
      | none => c :: subSpan A B bad repl fuel cs
    else c :: subSpan A B bad repl fuel cs

/-- `re.findall("A.*?B", s)` for literal anchors: the list of full match
strings, scanning left to right past each match. -/
def findallSpan (A B : Str) (bad : Char → Bool) : Nat → Str → List Str
  | _, [] => []
  | 0, _ => []
  | fuel + 1, c :: cs =>
    if startsW A (c :: cs) then
      match findClose B bad ((c :: cs).drop A.length).length ((c :: cs).drop A.length) with
      | some (mid, after) => (A ++ mid ++ B) :: findallSpan A B bad fuel after
      | none => findallSpan A B bad fuel cs
    else findallSpan A B bad fuel cs

/-- `re.sub(r"\x7d\x7d[^\x7b][^\x7b]*?\x7d\x7d", "\x7d\x7d", s)`
(`generate_corpus.py` line 635): a closing double brace, one required
non-`\x7b` character, a lazy run of non-`\x7b` characters, and another
closing double brace, collapsed to a single `\x7d\x7d`. -/
def subBraceCite : Nat → Str → Str
  | _, [] => []
  | 0, s => s
  | fuel + 1, c :: cs =>
    let s := c :: cs
    if startsW (lit "\x7d\x7d") s then
      match s.drop 2 with
      | d :: ds =>
        if d ≠ '\x7b' then
          match findClose (lit "\x7d\x7d") (fun x => x = '\x7b') ds.length ds with
          | some (_, after) => lit "\x7d\x7d" ++ subBraceCite fuel after
          | none => c :: subBraceCite fuel cs
        else c :: subBraceCite fuel cs
      | [] => c :: subBraceCite fuel cs
    else c :: subBraceCite fuel cs

/-- `re.sub(r"&amp;|nbsp;", '', s)` (line 657): remove every occurrence
of either literal alternative, leftmost first. -/
def subAmpNbsp : Nat → Str → Str
  | _, [] => []
  | 0, s => s
  | fuel + 1, c :: cs =>
    if startsW (lit "&amp;") (c :: cs) then subAmpNbsp fuel ((c :: cs).drop 5)
    else if startsW (lit "nbsp;") (c :: cs) then subAmpNbsp fuel ((c :: cs).drop 5)
    else c :: subAmpNbsp fuel cs

def isAsciiLetter (c : Char) : Bool :=
  ('a' ≤ c && c ≤ 'z') || ('A' ≤ c && c ≤ 'Z')

/-- `re.sub(r"([a-zA-Z])'([a-zA-Z])", r"\1\2", s)` (line 671):
splice contractions by deleting an apostrophe between two letters;
matches are non-overlapping, scanning resumes after each match. -/
def subContraction : Nat → Str → Str
  | _, [] => []
  | 0, s => s
  | fuel + 1, c :: cs =>
    match cs with
    | '\x27' :: b :: rest =>
      if isAsciiLetter c && isAsciiLetter b then
        c :: b :: subContraction fuel rest
      else c :: subContraction fuel cs
    | _ => c :: subContraction fuel cs

/-- `re.sub(r"([0-9]),([0-9])", r"\1\2", s)` (line 676):
remove a comma between two digits, non-overlapping. -/
def subDigitComma : Nat → Str → Str
  | _, [] => []
  | 0, s => s
  | fuel + 1, c :: cs =>
    match cs with
    | ',' :: b :: rest =>
      if c.isDigit && b.isDigit then c :: b :: subDigitComma fuel rest
      else c :: subDigitComma fuel cs
    | _ => c :: subDigitComma fuel cs

def isUpperAZ (c : Char) : Bool := 'A' ≤ c && c ≤ 'Z'

/-- `re.sub(r"[A-Z]\.[A-Z]\.", '', s)` (line 700): delete two-letter
initials. -/
def subInitials : Nat → Str → Str
  | _, [] => []
  | 0, s => s
  | fuel + 1, c :: cs =>
    match cs with
    | '.' :: b :: '.' :: rest =>
      if isUpperAZ c && isUpperAZ b then subInitials fuel rest
      else c :: subInitials fuel cs
    | _ => c :: subInitials fuel cs

/-- `re.sub(r" [A-HJ-Z]\.", ' ', s)` (line 702): a space, a capital other
than `I`, and a period become a single space. -/
def subCapDot : Nat → Str → Str
  | _, [] => []
  | 0, s => s
  | fuel + 1, c :: cs =>
    match c, cs with
    | ' ', b :: '.' :: rest =>
      if isUpperAZ b && b ≠ 'I' then ' ' :: subCapDot fuel rest
      else ' ' :: subCapDot fuel cs
    | _, _ => c :: subCapDot fuel cs

/-- `re.sub(r"([0-9]+)\.[0-9]+", r"\1", s)` (line 706): truncate a
decimal number to its integer part. -/
def subDecimal : Nat → Str → Str
  | _, [] => []
  | 0, s => s
  | fuel + 1, c :: cs =>
    if c.isDigit then
      let run1 := c :: cs.takeWhile Char.isDigit
      let rest1 := cs.dropWhile Char.isDigit
      match rest1 with
      | '.' :: d :: rest2 =>
        if d.isDigit then
          run1 ++ subDecimal fuel (rest2.dropWhile Char.isDigit)
        else run1 ++ subDecimal fuel rest1
      | _ => run1 ++ subDecimal fuel rest1
    else c :: subDecimal fuel cs

/-- Python `repr` of a string over printable characters (no control
characters appear in the whitespace-split tokens this is applied to):
single-quoted, double-quoted if the string holds an apostrophe but no
double quote; backslashes and the quoting character are escaped. -/
def pyReprStr (s : Str) : Str :=
  if s.contains '\x27' && ¬ s.contains '"' then
    '"' :: s.flatMap (fun c => if c = '\\' then lit "\\\\" else [c]) ++ ['"']
  else
    '\x27' :: s.flatMap (fun c =>
      if c = '\\' then lit "\\\\"
      else if c = '\x27' then lit "\\\x27" else [c]) ++ ['\x27']

/-- Python `str` of a list of strings (`str(fragments[1:])` on line 653):
the bracketed, comma-separated sequence of the `repr`s of the elements. -/
def pyStrOfList (ts : List Str) : Str :=
  '[' :: List.intercalate (lit ", ") (ts.map pyReprStr) ++ [']']

/-! ## `article.py` — the `Article` class and its paragraph filter -/

/-- The state of an `Article` object from `article.py`: the stripped
lines, the redirect flag, the parsed namespace, the optional title, and
the `_paragraphs` memoization slot. -/
structure Article where
  lines : List Str
  is_redirect_page : Bool
  namespace_id : Nat
  title : Option Str
  paragraphs_cache : Option (List Str)
deriving Repr, DecidableEq

/-- One raw line is discarded by `Article.get_paragraphs`' filter chain
(`article.py` lines 61-130) when any of the exclusion predicates fires;
`keep_line` is true exactly for the lines that are appended to
`paragraphs`. -/
def keep_line (line : Str) : Bool :=
  ¬ (startsW (lit "|") line ||
     line.length ≤ 1 ||
     startsW (lit "\x7d\x7d") line ||
     (startsW (lit "<") line || endsW (lit ">") line) ||
     (startsW (lit "==") line && endsW (lit "==") line) ||
     (startsW (lit "*") line || startsW (lit "#") line) ||
     (startsW (lit ";") line || startsW (lit ":") line) ||
     (startsW (lit "\x7b\x7b") line && endsW (lit "\x7d\x7d") line &&
      ¬ containsSub (lit "\x7b\x7b") (slice2m2 line) &&
      ¬ containsSub (lit "\x7d\x7d") (slice2m2 line)) ||
     startsW (lit "!") line ||
     (startsW (lit "[[") line &&
      (endsW (lit "]]") line || endsW (lit "]]</text>") line)) ||
     startsW (lit "[[File:") line ||
     (startsW (lit "&lt;math") line && endsW (lit "/math&gt;") line) ||
     (startsW (lit "&lt;ref name=") line && endsW (lit "/ref&gt;") line) ||
     (startsW (lit "\x7b\x7b") line && ¬ containsSub (lit "\x7d\x7d") line) ||
     (startsW (lit "&lt;!--") line && endsW (lit "--&gt;") line) ||
     (line.length < 100 && startsW (lit "&lt;") line && endsW (lit "&gt;") line) ||
     (startsW (lit "\x7b|") line) ||
     startsW (lit "File:") line)

/-- `Article.get_paragraphs` (`article.py` lines 33-135).  The Python
method mutates `self._paragraphs`; here the updated object is returned
alongside the result.  `namespaces = none` models the Python default
argument `None` (which becomes `[0]`). -/
def get_paragraphs (a : Article) (namespaces : Option (List Nat)) :
    Option (List Str) × Article :=
  match a.paragraphs_cache with
  | some ps => (some ps, a)
  | none =>
    if a.is_redirect_page then (none, a)
    else
      let ns := namespaces.getD [0]
      if a.namespace_id ∈ ns then
        let ps := a.lines.filter keep_line
        (some ps, { a with paragraphs_cache := some ps })
      else (none, a)

/-- Lazy search for the pattern `<title>(.+?)</title>`
(`re.search` in the `Article` constructor): returns the group. -/
def titleGroupFrom : Nat → Str → Option Str
  | _, [] => none
  | 0, _ => none
  | fuel + 1, c :: cs =>
    if startsW (lit "<title>") (c :: cs) then
      titleClose ((c :: cs).drop 7).length ((c :: cs).drop 7) []
    else titleGroupFrom fuel cs
where
  /-- Find the shortest non-empty middle before `</title>`
  (the group `(.+?)`; `.` does not match a newline). -/
  titleClose : Nat → Str → Str → Option Str
  | _, [], _ => none
  | 0, _, _ => none
  | fuel + 1, c :: cs, acc =>
    if c = '\n' then none
    else if acc ≠ [] && startsW (lit "</title>") (c :: cs) then some acc.reverse
    else titleClose fuel cs (c :: acc)

/-- The `Article.__init__` constructor (`article.py` lines 8-31).
Returns `Except`: the Python code raises (`IndexError`) when `data` has
fewer than two elements or `data[1]` holds no digit, and
(`AttributeError`) when a line starts with `<title>` but the search
pattern `<title>(.+?)</title>` does not match. -/
def mkArticle (data : List Str) : Except String Article := do
  let second ← match data.get? 1 with
    | some l => pure l
    | none => throw "IndexError: list index out of range"
  let nsRun ← match firstDigitRun second with
    | some r => pure r
    | none => throw "IndexError: no digits in data[1]"
  let init : Article :=
    { lines := [], is_redirect_page := false,
      namespace_id := digitsToNat nsRun, title := none,
      paragraphs_cache := none }
  data.foldlM (fun a rawLine => do
    let line := pyStrip rawLine
    let a := { a with lines := a.lines ++ [line] }
    let a := if startsW (lit "<redirect title=") line
             then { a with is_redirect_page := true } else a
    if startsW (lit "<title>") line then
      match titleGroupFrom line.length line with
      | some t => pure { a with title := some t }
      | none => throw "AttributeError: NoneType has no attribute group"
    else
      pure a) init

/-! ## `generate_corpus.py` — configuration and the Markup Normalizer -/

inductive DocType
  | sentence
  | paragraph
  | article
deriving Repr, DecidableEq

/-- The configuration handed to `process_paragraph`: the document
granularity, the two punctuation sets behind `translation_exclude` /
`translation_include` (built in `validate_configuration`, lines
264-279), and the garbage marker. -/
structure PPConfig where
  doc_type : DocType
  punct_exclude : Str
  punct_incl : Str
  marker_garbage : Str

/-- The configuration for `document_type = 'sentence'`: double quotes are
excluded, not surrounded by spaces. -/
def cfgSentence : PPConfig :=
  { doc_type := .sentence,
    punct_exclude := lit "#$&*+<=>@[\\]^_\x60\x7b|\x7d~%\"",
    punct_incl := lit "-()/;,:!.?\x27",
    marker_garbage := lit "evmprocessgarbagemarker" }

/-- The configuration for `document_type = 'paragraph'`: double quotes
are kept and treated as tokens. -/
def cfgParagraph : PPConfig :=
  { doc_type := .paragraph,
    punct_exclude := lit "#$&*+<=>@[\\]^_\x60\x7b|\x7d~%",
    punct_incl := lit "-()/;,:!.?\x27\"",
    marker_garbage := lit "evmprocessgarbagemarker" }

/-- Resolve `\x7b\x7blang|...\x7d\x7d` templates (lines 595-602):
`re.findall` on the original paragraph, then replace the first
occurrence of each match by the last pipe fragment (apostrophes
stripped), or by the second-to-last fragment when the last contains
`=`. -/
def langsStage (p : Str) : Str :=
  let langs := findallSpan (lit "\x7b\x7blang|") (lit "\x7d\x7d")
    (fun c => c = '\n') p.length p
  langs.foldl (fun q lang =>
    let frags := splitOnCh '|' (slice2m2 lang)
    let lastF := frags.getLastD []
    let subst := if ¬ lastF.contains '=' then lastF.filter (fun c => c != '\x27')
                 else frags.dropLast.getLastD []
    replFirst lang subst q) p

/-- The connector words/symbols excluded as a `convert` unit fragment
(lines 611-614). -/
def convertConnectors : List Str :=
  [lit "-", lit "–", lit "and", lit "and(-)", lit "or", lit "to",
   lit "to(-)", lit "to about", lit "+/-", lit "±", lit "+", lit ",",
   lit ", and", lit ", or", lit "by", lit "x", lit "×", lit "xx", lit "*"]

/-- Resolve `\x7b\x7bconvert|...\x7d\x7d` templates (lines 607-621). -/
def convertStage (garbage : Str) (p : Str) : Str :=
  let convs := findallSpan (lit "\x7b\x7bconvert|") (lit "\x7d\x7d")
    (fun c => c = '\n') p.length p
  convs.foldl (fun q conv =>
    let frags := splitOnCh '|' (slice2m2 conv)
    let base := frags.getD 1 [] ++ [' ']
    let subst :=
      if 3 ≤ frags.length && ¬ convertConnectors.contains (frags.getD 2 []) then
        base ++ frags.getD 2 []
      else if 5 ≤ frags.length then base ++ frags.getD 4 []
      else garbage
    replFirst conv (subst.filter (fun c => c != '[' && c != ']')) q) p

/-- Resolve `\x7b\x7btransl|...\x7d\x7d` templates (lines 624-628). -/
def translStage (p : Str) : Str :=
  let ts := findallSpan (lit "\x7b\x7btransl|") (lit "\x7d\x7d")
    (fun c => c = '\n') p.length p
  ts.foldl (fun q t =>
    let frags := splitOnCh '|' (slice2m2 t)
    replFirst t ((frags.getLastD []).filter (fun c => c != '[' && c != ']')) q) p

/-- Resolve internal hyperlinks `[[...]]` (lines 641-644): substitute the
last pipe fragment of each match. -/
def linksStage (p : Str) : Str :=
  let ls := findallSpan (lit "[[") (lit "]]") (fun c => c = '\n') p.length p
  ls.foldl (fun q l =>
    replFirst l ((splitOnCh '|' (slice2m2 l)).getLastD []) q) p

/-- Resolve bracketed external links `[...]` (lines 647-654): keep a
single token; for several tokens the code substitutes
`str(fragments[1:])` — the Python list representation. -/
def elinksStage (p : Str) : Str :=
  let ls := findallSpan (lit "[") (lit "]") (fun c => c = '\n') p.length p
  ls.foldl (fun q l =>
    let frags := pySplitWs (slice1m1 l)
    let subst := if frags.length = 1 then frags.getD 0 []
                 else pyStrOfList (frags.drop 1)
    replFirst l subst q) p

/-- Python `str.translate(translation_exclude)`: delete the excluded
punctuation characters (line 681). -/
def translateExclude (excl : Str) (s : Str) : Str :=
  s.filter (fun c => !(excl.contains c))

/-- Python `str.translate(translation_include)`: surround the included
punctuation characters with spaces (line 784). -/
def translateInclWrap (incl : Str) (s : Str) : Str :=
  s.flatMap (fun c => if incl.contains c then [' ', c, ' '] else [c])

/-- The abbreviation-expansion substitutions of lines 689-696, in source
order.  All the patterns are literals (the dots are escaped in the
source). -/
def abbrevStage (p : Str) : Str :=
  let p := subLit (lit "e.g.") (lit "for example") p
  let p := subLit (lit "i.e.") (lit "that is") p
  let p := subLit (lit "etc.") (lit "etcetera") p
  let p := subLit (lit "et al.") (lit "and others") p
  let p := subLit (lit "mr.") (lit "mr") p
  let p := subLit (lit "mrs.") (lit "mrs") p
  let p := subLit (lit "ms.") (lit "ms") p
  subLit (lit "miss.") (lit "miss") p

/-- The Markup Normalizer up to and including external-link resolution
(`process_paragraph` lines 594-654) — the point at which the
specification places the minimum-length re-check. -/
def normPreCheck (cfg : PPConfig) (p : Str) : Str :=
  let p := langsStage p
  let p := convertStage cfg.marker_garbage p
  let p := translStage p
  let p := subSpan (lit "&lt;ref") (lit "/ref&gt;") (fun c => c = '\n') [] p.length p
  let p := subSpan (lit "&lt") (lit "&gt;") (fun c => c = '\n') [] p.length p
  let p := subBraceCite p.length p
  let p := subSpan (lit "\x7b\x7b") (lit "\x7d\x7d") (fun c => c = '\n') [] p.length p
  let p := subLit (lit "()") [] p
  let p := linksStage p
  elinksStage p

/-- The full Markup Normalizer: `process_paragraph` lines 594-709, from
template resolution through lowercasing. -/
def normalize (cfg : PPConfig) (p : Str) : Str :=
  let p := normPreCheck cfg p
  let p := subAmpNbsp p.length p
  let p := subLit (lit "&quot;") (lit "\"") p
  let p := subLit (lit "\x27\x27\x27") [] p
  let p := subLit (lit "\x27\x27") [] p
  let p := subContraction p.length p
  let p := subDigitComma p.length p
  let p := translateExclude cfg.punct_exclude p
  let p := abbrevStage p
  let p := subLit (lit "...") [] p
  let p := subInitials p.length p
  let p := subCapDot p.length p
  let p := subDecimal p.length p
  pyLower p

/-! ## `split_paragraph` (lines 746-788) — the Sentence Splitter -/

/-- The sentence terminators, in source order (line 760). -/
def splitters : List Str :=
  [lit ".\"", lit "!\"", lit "?\"", lit ".", lit "!", lit "?"]

/-- Python `s[-2:]`: the last two characters (the whole string when it is
shorter). -/
def lastTwo (s : Str) : Str := s.drop (s.length - 2)

/-- Python `s[-2:-1]`: the second-to-last character as a one-character
string, empty when the string has fewer than two characters. -/
def secondToLast (s : Str) : Str :=
  if s.length ≤ 1 then [] else (lastTwo s).take 1

/-- One iteration of the character loop of `split_paragraph` (lines
764-775), without the final-index clause: the state is the emitted lines
and the current buffer. -/
def splitStep (st : List Str × Str) (c : Char) : List Str × Str :=
  let cur := st.2 ++ [c]
  if splitters.contains (lastTwo cur) then (st.1 ++ [pyStrip cur], [])
  else if splitters.contains (secondToLast cur) then
    (st.1 ++ [pyStrip cur.dropLast], [])
  else (st.1, cur)

/-- The scanning loop of `split_paragraph` including the final-index
clause (lines 777-779): the clause fires exactly when the last character
took neither splitter branch, i.e. when the final buffer is non-empty;
the remainder is appended unstripped unless it is a lone newline. -/
def splitRawLines (p : Str) : List Str :=
  let r := p.foldl splitStep ([], [])
  if r.2 = [] then r.1
  else if r.2 = ['\n'] then r.1
  else r.1 ++ [r.2]

/-- `split_paragraph` (lines 746-788): split into sentences, then
surround included punctuation with spaces and collapse space runs. -/
def split_paragraph (p : Str) (incl : Str) : List Str :=
  (splitRawLines p).map (fun l => collapseSpaces (translateInclWrap incl l))

/-! ## `process_paragraph` (lines 578-743) — Document Assembler -/

/-- Python `str.isalpha` over the ASCII range: non-empty and all
letters. -/
def pyIsAlpha (t : Str) : Bool := t ≠ [] && t.all Char.isAlpha

/-- The short-document rejection rule (lines 729-735): a tokenized
candidate of four or fewer tokens is kept exactly when every token other
than the last is purely alphabetic; longer candidates are always
kept. -/
def keep_document (toks : List Str) : Bool :=
  if toks.length ≤ 4 then toks.dropLast.all pyIsAlpha else true

/-- `process_paragraph` (lines 578-743): normalize, split into
sentences, apply the rejection rule to each whitespace-tokenized
candidate, rejoin kept candidates with single spaces; at `sentence`
granularity each candidate is one document, otherwise all candidates are
joined into a single document. -/
def process_paragraph (p : Str) (cfg : PPConfig) : List Str :=
  let np := normalize cfg p
  let sentences := split_paragraph np cfg.punct_incl
  let documents := sentences.filterMap (fun s =>
    let toks := pySplitWs s
    if keep_document toks then some (joinSpaces toks) else none)
  match cfg.doc_type with
  | .sentence => documents
  | _ => [joinSpaces documents]

/-! ## `extract_documents` (lines 400-575) — the page loop

The per-line loop of `extract_documents` in production mode is modelled
as a step function over an explicit state.  The two Python locals
`correct_name_space` and `is_a_redirect` are assigned only when a
`<page>` line is seen, so they are `Option Bool` here: `none` models the
unbound state, whose *read* raises `UnboundLocalError` in Python (an
assignment to an unbound local is fine).  `docs` is the sequence of
document lines written to the document storage file. -/

structure XConfig where
  pp : PPConfig
  marker_paragraph_break : Str

def xcfgSentence : XConfig :=
  { pp := cfgSentence, marker_paragraph_break := lit "uvmr_ev_paragraph_break" }

structure XState where
  lines : List Str
  correct_name_space : Option Bool
  is_a_redirect : Option Bool
  docs : List Str
  articles_extracted : Nat
  documents_generated : Nat
deriving Repr, DecidableEq

/-- The `else` branch of the loop (lines 554-562): append the line to the
accumulator; a line equal to `<ns>0</ns>` (the code's
`startswith('<ns>') and line == '<ns>0</ns>'` collapses to this
equality) sets the namespace flag, a line starting with
`<redirect title=` sets the redirect flag. -/
def accumulateLine (s : XState) (line : Str) : XState :=
  { s with
    lines := s.lines ++ [line],
    correct_name_space :=
      if line = lit "<ns>0</ns>" then some true else s.correct_name_space,
    is_a_redirect :=
      if startsW (lit "<redirect title=") line then some true
      else s.is_a_redirect }

/-- The qualifying-page branch (lines 506-547): build the `Article`,
take its paragraphs (iterating a `None` result raises `TypeError`),
process each paragraph, and write the documents at the configured
granularity. -/
def emitPage (cfg : XConfig) (s : XState) : Except String XState := do
  let article ← mkArticle s.lines
  let paragraphs ← match (get_paragraphs article none).1 with
    | some ps => pure ps
    | none => throw "TypeError: NoneType object is not iterable"
  match cfg.pp.doc_type with
  | .article =>
    let ad := paragraphs.foldl (fun acc para =>
      acc ++ (process_paragraph para cfg.pp).headD [] ++
        ' ' :: cfg.marker_paragraph_break ++ [' ']) []
    pure { s with docs := s.docs ++ [ad],
                  documents_generated := s.documents_generated + 1,
                  articles_extracted := s.articles_extracted + 1 }
  | _ =>
    let newDocs := paragraphs.flatMap (fun para => process_paragraph para cfg.pp)
    pure { s with docs := s.docs ++ newDocs,
                  documents_generated := s.documents_generated + newDocs.length,
                  articles_extracted := s.articles_extracted + 1 }

/-- One iteration of the `extract_documents` loop (lines 487-562) on an
already-stripped line.  The `elif` condition
`line == '</page>' and correct_name_space and not is_a_redirect`
evaluates its conjuncts left to right, so an unbound flag is only read —
and only raises — once the preceding conjuncts are true; when the
condition is false the line falls through to the `else` branch and is
appended to the accumulator. -/
def xstep (cfg : XConfig) (s : XState) (line : Str) : Except String XState :=
  if line = lit "<page>" then
    pure { s with lines := [], correct_name_space := some false,
                  is_a_redirect := some false }
  else if line = lit "</page>" then
    match s.correct_name_space with
    | none => throw "UnboundLocalError: correct_name_space"
    | some false => pure (accumulateLine s line)
    | some true =>
      match s.is_a_redirect with
      | none => throw "UnboundLocalError: is_a_redirect"
      | some true => pure (accumulateLine s line)
      | some false => emitPage cfg s
  else pure (accumulateLine s line)

def initX : XState :=
  { lines := [], correct_name_space := none, is_a_redirect := none,
    docs := [], articles_extracted := 0, documents_generated := 0 }

/-- Run the loop from an arbitrary state over already-stripped lines. -/
def runFrom (cfg : XConfig) (s : XState) (ls : List Str) : Except String XState :=
  ls.foldlM (xstep cfg) s

/-- `extract_documents` in production mode over the decoded input lines:
each line is stripped (line 492) and fed to the loop. -/
def extract_documents (cfg : XConfig) (ls : List Str) : Except String XState :=
  runFrom cfg initX (ls.map pyStrip)

/-! ## `chunk_documents_to_files` (lines 791-893) — the Chunk Writer

The function below receives the already-shuffled document list (the
`random.shuffle` of line 858 is outside the model) and returns the
`(file name, contents)` pairs handed to `dump_file`, exactly as the
slicing and naming code of lines 861-887 computes them. -/

/-- Python `str(n).rjust(w, '0')`. -/
def rjustZ (w n : Nat) : Str :=
  let s := lit (toString n)
  List.replicate (w - s.length) '0' ++ s

/-- The name of non-final chunk `file_num` (0-based), line 873:
3-zero-padded 1-based index, unpadded total. -/
def chunkFileNameMain (file_num num_files : Nat) : Str :=
  lit "corpus_file_" ++ rjustZ 3 (file_num + 1) ++ lit "_of_" ++ lit (toString num_files)

/-- The name of the final chunk, lines 882-885: 2-zero-padded index and
total. -/
def chunkFileNameLast (num_files : Nat) : Str :=
  lit "corpus_file_" ++ rjustZ 2 num_files ++ lit "_of_" ++ rjustZ 2 num_files

/-- The partitioning and naming of `chunk_documents_to_files`:
`num_files = len(documents) // documents_per_corpus_file + 1`; each
non-final file takes the slice `[k*n : (k+1)*n]`; the final file takes
`documents[(num_files - 1) * n : -1]`, i.e. the remaining documents
*minus the last element*. -/
def chunk_documents_to_files (documents : List Str) (dpf : Nat) :
    List (Str × List Str) :=
  let num_files := documents.length / dpf + 1
  (List.range (num_files - 1)).map (fun k =>
    (chunkFileNameMain k num_files, (documents.drop (k * dpf)).take dpf))
  ++ [(chunkFileNameLast num_files,
       (documents.drop ((num_files - 1) * dpf)).dropLast)]

/-! ## Concrete data used by the theorems below -/

/-- True exactly when the extraction run ended without a raised
exception. -/
def exceptOk : Except String XState → Bool
  | .ok _ => true
  | .error _ => false

/-- A well-formed page followed by one stray extra end marker. -/
def demoLines : List Str :=
  [lit "<page>", lit "<title>T</title>", lit "<ns>0</ns>",
   lit "the cat sat on the mat.", lit "</page>", lit "</page>"]

/-- The single document the page of `demoLines` generates. -/
def demoDoc : Str := lit "the cat sat on the mat ."

/-- A concrete non-redirect namespace-0 article with an unset cache. -/
def artEx : Article :=
  { lines := [lit "<title>T</title>", lit "<ns>0</ns>",
              lit "the cat sat on the mat."],
    is_redirect_page := false, namespace_id := 0,
    title := some (lit "T"), paragraphs_cache := none }

/-- A concrete redirect marker line. -/
def redirectLineEx : Str := lit "<redirect title=\"Foo\" />"

end UVMR

namespace UVMR

set_option maxRecDepth 10000

/-! ## Helper lemmas -/

theorem pyLowerChar_idem (c : Char) : pyLowerChar (pyLowerChar c) = pyLowerChar c := by
  unfold pyLowerChar
  by_cases h : 65 ≤ c.toNat ∧ c.toNat ≤ 90
  · rw [if_pos h]
    have hv : (c.toNat + 32).isValidChar := Or.inl (by omega)
    have h2 : (Char.ofNat (c.toNat + 32)).toNat = c.toNat + 32 := by
      unfold Char.ofNat
      rw [dif_pos hv]
      rfl
    rw [if_neg]
    rw [h2]
    omega
  · rw [if_neg h, if_neg h]

theorem splitWsAux_ne_nil :
    ∀ (s acc : Str), ∀ t ∈ splitWsAux s acc, t ≠ []
  | [], acc, t, ht => by
    unfold splitWsAux at ht
    split at ht
    · simp at ht
    · rename_i hacc
      rw [List.mem_singleton] at ht
      subst ht
      simpa using hacc
  | c :: cs, acc, t, ht => by
    unfold splitWsAux at ht
    split at ht
    · split at ht
      · exact splitWsAux_ne_nil cs [] t ht
      · rename_i hacc
        rcases List.mem_cons.mp ht with h1 | h1
        · subst h1
          simpa using hacc
        · exact splitWsAux_ne_nil cs [] t h1
    · exact splitWsAux_ne_nil cs (c :: acc) t ht

theorem pySplitWs_ne_nil (s : Str) : ∀ t ∈ pySplitWs s, t ≠ [] :=
  splitWsAux_ne_nil s []

theorem joinSpaces_eq_nil_iff :
    ∀ (ts : List Str), (∀ t ∈ ts, t ≠ []) → (joinSpaces ts = [] ↔ ts = [])
  | [], _ => by simp [joinSpaces]
  | [t], h => by
    simp only [joinSpaces]
    constructor
    · intro ht
      exact absurd ht (h t (List.mem_singleton.mpr rfl))
    · intro ht
      simp at ht
  | t :: t2 :: rest, _ => by
    simp only [joinSpaces]
    constructor
    · intro ht
      rcases List.append_eq_nil.mp ht with ⟨_, h2⟩
      simp at h2
    · intro ht
      simp at ht

theorem process_paragraph_sentence (p : Str) :
    process_paragraph p cfgSentence =
      (split_paragraph (normalize cfgSentence p) cfgSentence.punct_incl).filterMap
        (fun s =>
          if keep_document (pySplitWs s) then some (joinSpaces (pySplitWs s))
          else none) := rfl

/-! ## The claims -/

/-- C3 counterexample: the paragraph `hello world today friends.` is 26
characters long at the re-check point of the Markup Normalizer, yet
`process_paragraph` yields a document for it rather than zero. -/
theorem C3_counterexample :
    (normPreCheck cfgSentence (lit "hello world today friends.")).length < 100 ∧
    process_paragraph (lit "hello world today friends.") cfgSentence ≠ [] := by
  decide

/-- C3 amended: `process_paragraph` performs no minimum-length re-check
anywhere; a paragraph far shorter than 100 characters after link
resolution is processed like any other and yields its documents. -/
theorem C3_amended_no_min_length_recheck :
    (normPreCheck cfgSentence (lit "hello world today friends.")).length < 100 ∧
    process_paragraph (lit "hello world today friends.") cfgSentence =
      [lit "hello world today friends ."] := by
  decide

/-- C4 counterexample: the one-token paragraph `hello` produces the
one-token Document `hello` — a candidate of exactly one token is *not*
dropped. -/
theorem C4_counterexample :
    process_paragraph (lit "hello") cfgSentence = [lit "hello"] ∧
    (pySplitWs (lit "hello")).length = 1 := by
  decide

/-- C4 amended: the rejection rule of `process_paragraph` checks only the
tokens *other than the last*, so a candidate of exactly one token is
always kept (its non-final token list is empty), whatever the token. -/
theorem C4_amended_one_token_kept (toks : List Str) (h : toks.length = 1) :
    keep_document toks = true := by
  match toks, h with
  | [t], _ => rfl

/-- Witness for C4's amended theorem at the non-alphabetic token `x5`. -/
theorem C4_amended_witness : keep_document [lit "x5"] = true :=
  C4_amended_one_token_kept [lit "x5"] rfl

/-- C5 counterexample: the whitespace-only paragraph consisting of one
space yields the document list containing exactly the empty string — an
empty Document is appended. -/
theorem C5_counterexample :
    process_paragraph (lit " ") cfgSentence = [([] : Str)] := by
  decide

/-- C5 amended: at sentence granularity an empty document appears in the
output exactly when the sentence splitter emits a candidate with no
whitespace tokens; every candidate with at least one token yields a
non-empty document. -/
theorem C5_amended_empty_document_iff (p : Str) :
    (([] : Str) ∈ process_paragraph p cfgSentence) ↔
      ∃ s ∈ split_paragraph (normalize cfgSentence p) cfgSentence.punct_incl,
        pySplitWs s = [] := by
  rw [process_paragraph_sentence, List.mem_filterMap]
  constructor
  · rintro ⟨s, hs, hf⟩
    refine ⟨s, hs, ?_⟩
    by_cases hk : keep_document (pySplitWs s) = true
    · rw [if_pos hk] at hf
      have hj : joinSpaces (pySplitWs s) = [] := Option.some.inj hf
      exact (joinSpaces_eq_nil_iff (pySplitWs s) (pySplitWs_ne_nil s)).mp hj
    · rw [if_neg hk] at hf
      simp at hf
  · rintro ⟨s, hs, ht⟩
    refine ⟨s, hs, ?_⟩
    rw [ht]
    rfl

/-- C6 counterexample: on the paragraph `a.b` the splitter emits the
single sentence `a.` — the terminator is retained in the emitted buffer
and the character after it (`b`) is dropped, contradicting the claim
that the buffer minus the terminator is emitted with no other character
dropped (which would give `a` and `b`). -/
theorem C6_counterexample :
    splitRawLines (lit "a.b") = [lit "a."] ∧
    splitRawLines (lit "a.b") ≠ [lit "a", lit "b"] := by
  decide

/-- C6 amended: the one-character-terminator branch fires when the
*second-to-last* character of the buffer-plus-current-character is a
terminator (and the last two characters are not a two-character
terminator); it then emits the buffer *minus the just-scanned character*
— retaining the terminator and dropping the character that follows it —
trimmed, and resets the buffer. -/
theorem C6_amended_one_char_rule (ls : List Str) (cur : Str) (c : Char)
    (h1 : splitters.contains (lastTwo (cur ++ [c])) = false)
    (h2 : splitters.contains (secondToLast (cur ++ [c])) = true) :
    splitStep (ls, cur) c = (ls ++ [pyStrip cur], []) := by
  have h1m : lastTwo (cur ++ [c]) ∉ splitters := by
    simpa using h1
  have h2m : secondToLast (cur ++ [c]) ∈ splitters := by
    simpa using h2
  simp [splitStep, h1m, h2m, List.dropLast_concat]

/-- Witness for C6's amended theorem: scanning `c` with buffer `ab.`. -/
theorem C6_amended_witness :
    splitStep ([], lit "ab.") 'c' = ([] ++ [pyStrip (lit "ab.")], []) :=
  C6_amended_one_char_rule [] (lit "ab.") 'c' (by decide) (by decide)

/-- C7: evaluating the external-link resolution at the failing input
`[http://x.com foo bar]` shows the code substitutes the Python list
representation of the label tokens, not the tokens joined by spaces. -/
theorem C7_failing_input_eval :
    elinksStage (lit "[http://x.com foo bar]") = lit "[\x27foo\x27, \x27bar\x27]" ∧
    elinksStage (lit "[http://x.com foo bar]") ≠ lit "foo bar" := by
  decide

/-- C8 counterexample: the Markup Normalizer is not idempotent — on
`Etc.` a second application changes the output again. -/
theorem C8_counterexample :
    normalize cfgSentence (normalize cfgSentence (lit "Etc.")) ≠
      normalize cfgSentence (lit "Etc.") := by
  decide

/-- C8 amended: the abbreviation patterns are lowercase-only and run
before the final lowercasing, so a second pass expands abbreviations the
first left intact (`Etc.` → `etc.` → `etcetera`); only the lowercasing
step itself is idempotent. -/
theorem C8_amended_not_idempotent :
    normalize cfgSentence (lit "Etc.") = lit "etc." ∧
    normalize cfgSentence (normalize cfgSentence (lit "Etc.")) = lit "etcetera" ∧
    ∀ s : Str, pyLower (pyLower s) = pyLower s := by
  refine ⟨by decide, by decide, ?_⟩
  intro s
  unfold pyLower
  rw [List.map_map]
  exact List.map_congr_left fun c _ => pyLowerChar_idem c

/-- C9: evaluating the Chunk Writer at the failing input (three
documents, two per file) shows the partition is not exact: document `c`
appears in no chunk (the last chunk is sliced with `[:-1]`), and the
last file's name is padded differently from the others. -/
theorem C9_failing_input_eval :
    chunk_documents_to_files [lit "a", lit "b", lit "c"] 2 =
      [(lit "corpus_file_001_of_2", [lit "a", lit "b"]),
       (lit "corpus_file_02_of_02", [])] ∧
    (chunk_documents_to_files [lit "a", lit "b", lit "c"] 2).all
      (fun chunk => !(chunk.2.contains (lit "c"))) = true := by
  decide

/-- C10: `Article.get_paragraphs` memoizes: a cached article returns the
cached list unchanged for any namespaces argument; with an unset cache a
redirect article or one outside the namespaces returns `none` leaving
the cache unset; a qualifying article computes the filtered paragraph
list, caches it, and every later call returns that same list. -/
theorem C10_get_paragraphs_memoization (a : Article) (nss : Option (List Nat)) :
    (∀ ps, a.paragraphs_cache = some ps → get_paragraphs a nss = (some ps, a)) ∧
    (a.paragraphs_cache = none → a.is_redirect_page = true →
      get_paragraphs a nss = (none, a)) ∧
    (a.paragraphs_cache = none → a.is_redirect_page = false →
      a.namespace_id ∈ nss.getD [0] →
      get_paragraphs a nss =
        (some (a.lines.filter keep_line),
         { a with paragraphs_cache := some (a.lines.filter keep_line) }) ∧
      (∀ nss2, get_paragraphs
          { a with paragraphs_cache := some (a.lines.filter keep_line) } nss2 =
        (some (a.lines.filter keep_line),
         { a with paragraphs_cache := some (a.lines.filter keep_line) }))) ∧
    (a.paragraphs_cache = none → a.is_redirect_page = false →
      a.namespace_id ∉ nss.getD [0] →
      get_paragraphs a nss = (none, a)) := by
  refine ⟨?_, ?_, ?_, ?_⟩
  · intro ps h
    simp [get_paragraphs, h]
  · intro h hr
    simp [get_paragraphs, h, hr]
  · intro h hr hm
    refine ⟨?_, ?_⟩
    · simp [get_paragraphs, h, hr, hm]
    · intro nss2
      rfl
  · intro h hr hm
    simp [get_paragraphs, h, hr, hm]

/-- Witness for C10 at a concrete qualifying article. -/
theorem C10_witness :
    get_paragraphs artEx none =
      (some (artEx.lines.filter keep_line),
       { artEx with paragraphs_cache := some (artEx.lines.filter keep_line) }) :=
  ((C10_get_paragraphs_memoization artEx none).2.2.1 rfl rfl (by decide)).1

end UVMR

namespace UVMR

set_option maxRecDepth 10000

/-! ## The page-loop claims (C1, C2) -/

theorem accumulateLine_redirect (s : XState) (l : Str) :
    (accumulateLine s l).is_a_redirect =
      if startsW (lit "<redirect title=") l then some true
      else s.is_a_redirect := rfl

theorem accumulateLine_cns (s : XState) (l : Str) :
    (accumulateLine s l).correct_name_space =
      if l = lit "<ns>0</ns>" then some true
      else s.correct_name_space := rfl

theorem foldl_accumulateLine_counters :
    ∀ (ls : List Str) (s : XState),
      (ls.foldl accumulateLine s).docs = s.docs ∧
      (ls.foldl accumulateLine s).articles_extracted = s.articles_extracted ∧
      (ls.foldl accumulateLine s).documents_generated = s.documents_generated
  | [], _ => ⟨rfl, rfl, rfl⟩
  | l :: ls, s => foldl_accumulateLine_counters ls (accumulateLine s l)

theorem foldl_accumulateLine_cns_isSome :
    ∀ (ls : List Str) (s : XState),
      s.correct_name_space.isSome = true →
      ((ls.foldl accumulateLine s).correct_name_space).isSome = true
  | [], _, h => h
  | l :: ls, s, h =>
    foldl_accumulateLine_cns_isSome ls (accumulateLine s l) (by
      rw [accumulateLine_cns]
      split
      · rfl
      · exact h)

theorem foldl_accumulateLine_redirect_stays :
    ∀ (ls : List Str) (s : XState),
      s.is_a_redirect = some true →
      (ls.foldl accumulateLine s).is_a_redirect = some true
  | [], _, h => h
  | l :: ls, s, h =>
    foldl_accumulateLine_redirect_stays ls (accumulateLine s l) (by
      rw [accumulateLine_redirect]
      split
      · rfl
      · exact h)

theorem foldl_accumulateLine_redirect_set :
    ∀ (ls : List Str) (s : XState),
      (∃ l ∈ ls, startsW (lit "<redirect title=") l = true) →
      (ls.foldl accumulateLine s).is_a_redirect = some true
  | [], _, h => by simp at h
  | l :: ls, s, h => by
    rcases h with ⟨x, hx, hsw⟩
    rcases List.mem_cons.mp hx with h1 | h1
    · subst h1
      exact foldl_accumulateLine_redirect_stays ls (accumulateLine s x) (by
        rw [accumulateLine_redirect, if_pos hsw])
    · exact foldl_accumulateLine_redirect_set ls (accumulateLine s l) ⟨x, h1, hsw⟩

theorem runFrom_nil (cfg : XConfig) (s : XState) : runFrom cfg s [] = .ok s := rfl

theorem runFrom_cons (cfg : XConfig) (s : XState) (l : Str) (ls : List Str) :
    runFrom cfg s (l :: ls) =
      xstep cfg s l >>= fun s2 => runFrom cfg s2 ls := rfl

theorem exceptOk_bind {α β : Type} (a : α) (f : α → Except String β) :
    (Except.ok a >>= fun x => f x) = f a := rfl

theorem runFrom_append (cfg : XConfig) :
    ∀ (ls1 ls2 : List Str) (s : XState),
      runFrom cfg s (ls1 ++ ls2) =
        runFrom cfg s ls1 >>= fun s2 => runFrom cfg s2 ls2
  | [], ls2, s => by
    rw [List.nil_append, runFrom_nil, exceptOk_bind]
  | l :: ls1, ls2, s => by
    rw [List.cons_append, runFrom_cons, runFrom_cons, bind_assoc]
    exact bind_congr fun s2 => runFrom_append cfg ls1 ls2 s2

theorem xstep_nonmarker (cfg : XConfig) (s : XState) (l : Str)
    (h1 : l ≠ lit "<page>") (h2 : l ≠ lit "</page>") :
    xstep cfg s l = pure (accumulateLine s l) := by
  unfold xstep
  rw [if_neg h1, if_neg h2]

theorem runFrom_nonmarkers (cfg : XConfig) :
    ∀ (ls : List Str) (s : XState),
      (∀ l ∈ ls, l ≠ lit "<page>" ∧ l ≠ lit "</page>") →
      runFrom cfg s ls = .ok (ls.foldl accumulateLine s)
  | [], _, _ => rfl
  | l :: ls, s, hmk => by
    have h := hmk l (List.mem_cons_self l ls)
    rw [runFrom_cons, xstep_nonmarker cfg s l h.1 h.2, pure_bind]
    exact runFrom_nonmarkers cfg ls (accumulateLine s l)
      (fun x hx => hmk x (List.mem_cons_of_mem l hx))

/-- C1 counterexample: two consecutive page-start markers do *not* abort
the extraction — the run completes without any raised error. -/
theorem C1_counterexample :
    exceptOk (extract_documents xcfgSentence [lit "<page>", lit "<page>"]) = true := by
  decide

/-- C1 amended: a second consecutive start marker silently resets the
accumulator and flags (no error); an end marker before any start marker
aborts, but through an uncaught `UnboundLocalError` on the namespace
flag rather than a deliberate descriptive structural error; and an extra
end marker after a completed qualifying page is processed as a second
end of the same page, silently re-emitting the page's documents and
double-counting the article. -/
theorem C1_amended_marker_handling :
    extract_documents xcfgSentence [lit "<page>", lit "<page>"] =
      .ok { lines := [], correct_name_space := some false,
            is_a_redirect := some false, docs := [],
            articles_extracted := 0, documents_generated := 0 } ∧
    extract_documents xcfgSentence [lit "</page>"] =
      .error "UnboundLocalError: correct_name_space" ∧
    (extract_documents xcfgSentence demoLines).map
      (fun s => (s.docs, s.articles_extracted)) =
      .ok ([demoDoc, demoDoc], 2) :=
  ⟨rfl, rfl, rfl⟩

/-- C2: a page whose accumulated lines contain a redirect-marker line
writes nothing to the document store: running the loop over
`<page>`, any non-marker lines among which one starts with
`<redirect title=`, and `</page>`, from any state, succeeds and leaves
the written documents and both counters unchanged. -/
theorem C2_redirect_page_writes_nothing (cfg : XConfig) (s : XState) (ls : List Str)
    (hmk : ∀ l ∈ ls, l ≠ lit "<page>" ∧ l ≠ lit "</page>")
    (hrd : ∃ l ∈ ls, startsW (lit "<redirect title=") l = true) :
    ∃ s2, runFrom cfg s (lit "<page>" :: (ls ++ [lit "</page>"])) = .ok s2 ∧
      s2.docs = s.docs ∧
      s2.articles_extracted = s.articles_extracted ∧
      s2.documents_generated = s.documents_generated := by
  have hpage : xstep cfg s (lit "<page>") =
      pure { s with lines := [], correct_name_space := some false,
                    is_a_redirect := some false } := by
    unfold xstep
    rw [if_pos rfl]
  rw [runFrom_cons, hpage, pure_bind, runFrom_append,
      runFrom_nonmarkers cfg ls _ hmk, exceptOk_bind]
  have hred := foldl_accumulateLine_redirect_set ls
    { s with lines := [], correct_name_space := some false,
             is_a_redirect := some false } hrd
  have hcns := foldl_accumulateLine_cns_isSome ls
    { s with lines := [], correct_name_space := some false,
             is_a_redirect := some false } rfl
  have hpres := foldl_accumulateLine_counters ls
    { s with lines := [], correct_name_space := some false,
             is_a_redirect := some false }
  have hend : xstep cfg
      (ls.foldl accumulateLine
        { s with lines := [], correct_name_space := some false,
                 is_a_redirect := some false }) (lit "</page>") =
      pure (accumulateLine
        (ls.foldl accumulateLine
          { s with lines := [], correct_name_space := some false,
                   is_a_redirect := some false }) (lit "</page>")) := by
    unfold xstep
    rw [if_neg (by decide), if_pos rfl]
    rcases hb : (ls.foldl accumulateLine
        { s with lines := [], correct_name_space := some false,
                 is_a_redirect := some false }).correct_name_space with _ | b
    · rw [hb] at hcns
      simp at hcns
    · cases b
      · rfl
      · rw [hred]
  rw [runFrom_cons, hend, pure_bind, runFrom_nil]
  exact ⟨_, rfl, hpres.1, hpres.2.1, hpres.2.2⟩

/-- Witness for C2 at a concrete one-line redirect page from the initial
state. -/
theorem C2_witness :
    ∃ s2, runFrom xcfgSentence initX
        (lit "<page>" :: ([redirectLineEx] ++ [lit "</page>"])) = .ok s2 ∧
      s2.docs = initX.docs ∧
      s2.articles_extracted = initX.articles_extracted ∧
      s2.documents_generated = initX.documents_generated :=
  C2_redirect_page_writes_nothing xcfgSentence initX [redirectLineEx]
    (by decide) (by decide)

end UVMR
